import Mathlib

/-!
Shallow embedding of the digimon-evolution-api repository
(src/utils/validation.js, src/services/digimonService.js,
src/routes/digimons.js) and proofs about it.

JavaScript numbers supplied as pagination parameters are modelled as exact
integers (`JSNum.intVal`) or as a missing/non-numeric value (`JSNum.absent`,
whose `parseInt` is NaN and hence falsy).  Strings are modelled over their
character lists; `substring(0, 100)` becomes `List.take 100`.
-/

namespace DigimonAPI

/-- A JavaScript value handed to `validatePagination`: either a numeric
integer, or a missing / non-numeric value (whose `parseInt` yields NaN). -/
inductive JSNum where
  | intVal (n : Int)
  | absent
deriving DecidableEq

/-- Embeds the JavaScript idiom `parseInt(x) || d`: `parseInt` of a missing or
non-numeric value is NaN (falsy), and a parsed value of `0` is falsy as well,
so both fall back to the default `d`. -/
def parseIntOr (x : JSNum) (d : Int) : Int :=
  match x with
  | .intVal n => if n = 0 then d else n
  | .absent => d

/-- The pair returned by `validatePagination` in src/utils/validation.js. -/
structure PageLimit where
  page : Int
  limit : Int
deriving DecidableEq

/-- Embeds `validatePagination(page, limit)` from src/utils/validation.js:
`page = Math.max(1, parseInt(page) || 1)`,
`limit = Math.min(100, Math.max(1, parseInt(limit) || 50))`. -/
def validatePagination (page limit : JSNum) : PageLimit :=
  { page := max 1 (parseIntOr page 1)
    limit := min 100 (max 1 (parseIntOr limit 50)) }

/-- A JavaScript value handed to `sanitizeSearchTerm`: a string, or any
non-string value (null, undefined, a number, an object, ...). -/
inductive JSStr where
  | strVal (s : String)
  | nonString
deriving DecidableEq

/-- The JavaScript whitespace class used by `String.prototype.trim`: space,
tab, line terminators, vertical tab, form feed, no-break space, BOM and the
line/paragraph separators. -/
def jsWhitespace (c : Char) : Bool :=
  c = ' ' || c = '\t' || c = '\n' || c = '\r' || c = '\x0b' || c = '\x0c' ||
  c = '\u00A0' || c = '\uFEFF' || c = '\u2028' || c = '\u2029'

/-- JavaScript `String.prototype.trim` over the character list: drop leading
and trailing whitespace. -/
def jsTrim (l : List Char) : List Char :=
  ((l.dropWhile jsWhitespace).reverse.dropWhile jsWhitespace).reverse

/-- Embeds `sanitizeSearchTerm(term)` from src/utils/validation.js:
non-string or falsy input returns the empty string (the empty string itself is
falsy in JavaScript, hence the extra branch, which returns the same value the
pipeline would); otherwise trim, delete every `<` and `>` via the regex
replace, and keep the first 100 characters (`substring(0, 100)`). -/
def sanitizeSearchTerm (term : JSStr) : String :=
  match term with
  | .nonString => ""
  | .strVal s =>
    if s = "" then ""
    else (((jsTrim s.toList).filter (fun c => !(c = '<' || c = '>'))).take 100).asString

/-- A raw creature row of the digimons table; `extraCols` stands for the
further stored columns that the formatter discards. -/
structure RawDigimon where
  id : Int
  number : Int
  name : String
  stage : String
  «attribute» : String
  image_url : String
  extraCols : String
deriving DecidableEq

/-- The fixed six-field public projection of a creature record. -/
structure Digimon where
  id : Int
  number : Int
  name : String
  stage : String
  «attribute» : String
  image_url : String
deriving DecidableEq

/-- Embeds `formatDigimon(digimon)` from src/services/digimonService.js:
null input yields null, otherwise the six-field projection. -/
def formatDigimon : Option RawDigimon → Option Digimon
  | none => none
  | some d => some { id := d.id, number := d.number, name := d.name,
                     stage := d.stage, «attribute» := d.«attribute»,
                     image_url := d.image_url }

/-- The response of a supabase `.single()` query: the row (null when no row
matched) and an optional error carrying its code.  The code `PGRST116` is the
recognized no-rows signal, in which case `data` is null. -/
structure SingleResp where
  data : Option RawDigimon
  error : Option String
deriving DecidableEq

/-- Embeds `getDigimonById(id)` from src/services/digimonService.js, as a
function of the backend response to its one query: a non-`PGRST116` error is
re-thrown as the generic message, otherwise the formatted row (or null)
is returned. -/
def getDigimonById (resp : SingleResp) : Except String (Option Digimon) :=
  match resp.error with
  | some code =>
    if code ≠ "PGRST116" then .error "Erro ao buscar Digimon por ID."
    else .ok (formatDigimon resp.data)
  | none => .ok (formatDigimon resp.data)

/-- Embeds `getDigimonByName(name)` from src/services/digimonService.js; same
contract as `getDigimonById`, keyed by exact name. -/
def getDigimonByName (resp : SingleResp) : Except String (Option Digimon) :=
  match resp.error with
  | some code =>
    if code ≠ "PGRST116" then .error "Erro ao buscar Digimon por nome."
    else .ok (formatDigimon resp.data)
  | none => .ok (formatDigimon resp.data)

/-- The response of a supabase multi-row query: the rows and an optional
error. -/
structure ListResp (α : Type) where
  data : List α
  error : Option String
deriving DecidableEq

/-- One row of the forward-evolution join query: the joined target record. -/
structure EvolvesToRow where
  to_digimon : Option RawDigimon
deriving DecidableEq

/-- One row of the backward-evolution join query: the joined source record. -/
structure EvolvesFromRow where
  from_digimon : Option RawDigimon
deriving DecidableEq

/-- A requirements-table row; it is passed through unformatted, so its fields
stay opaque. -/
structure Requirement where
  digimon_id : Int
  fields : String
deriving DecidableEq

/-- The backend responses observable by `getEvolutionData`'s four queries. -/
structure EvolutionBackend where
  byId : SingleResp
  evolvesToResp : ListResp EvolvesToRow
  evolvesFromResp : ListResp EvolvesFromRow
  requirementsResp : ListResp Requirement
deriving DecidableEq

/-- The queries `getEvolutionData` can issue against the backend. -/
inductive EvoQuery where
  | qById
  | qEvolvesTo
  | qEvolvesFrom
  | qRequirements
deriving DecidableEq

/-- The object returned by `getEvolutionData`; each field is `none` when the
corresponding key is absent from the returned object (the short-circuit
result has only a null `digimon` key). -/
structure EvolutionResult where
  digimon : Option Digimon
  evolves_to : Option (List (Option Digimon))
  evolves_from : Option (List (Option Digimon))
  requirements : Option (List Requirement)
deriving DecidableEq

/-- Embeds `getEvolutionData(id)` from src/services/digimonService.js as a
function of the backend responses, paired with the list of queries issued:
fetch the base creature (propagating a thrown error); if it is null return
only a null `digimon` and issue nothing else; otherwise issue the three
fan-out queries, throw the generic message if any of them errored, and
otherwise return the creature, both formatted edge lists, and the raw
requirement rows. -/
def getEvolutionData (b : EvolutionBackend) :
    Except String EvolutionResult × List EvoQuery :=
  match getDigimonById b.byId with
  | .error m => (.error m, [.qById])
  | .ok none =>
    (.ok { digimon := none, evolves_to := none, evolves_from := none,
           requirements := none }, [.qById])
  | .ok (some d) =>
    if b.evolvesToResp.error.isSome || b.evolvesFromResp.error.isSome ||
       b.requirementsResp.error.isSome then
      (.error "Erro ao buscar dados de evolução.",
       [.qById, .qEvolvesTo, .qEvolvesFrom, .qRequirements])
    else
      (.ok { digimon := some d
             evolves_to := some (b.evolvesToResp.data.map (fun e => formatDigimon e.to_digimon))
             evolves_from := some (b.evolvesFromResp.data.map (fun e => formatDigimon e.from_digimon))
             requirements := some b.requirementsResp.data },
       [.qById, .qEvolvesTo, .qEvolvesFrom, .qRequirements])

/-- The response of the paginated list query: rows, optional error, and the
exact total row count reported by the backend. -/
structure ListQueryResp where
  data : List RawDigimon
  error : Option String
  count : Nat
deriving DecidableEq

/-- The pagination envelope built by `getAllDigimons`. -/
structure PaginationInfo where
  page : Int
  limit : Int
  total : Nat
  totalPages : Int
deriving DecidableEq

/-- The successful result of `getAllDigimons`: formatted rows plus the
pagination envelope. -/
structure ListResult where
  data : List (Option Digimon)
  pagination : PaginationInfo
deriving DecidableEq

/-- Embeds `getAllDigimons` from src/services/digimonService.js as a function
of the validated page and limit, the optional stage filter (already baked into
the backend response it selects) and that response: on a backend error the
generic message is thrown, otherwise rows are formatted and the envelope is
built with `totalPages = Math.ceil(count / limit)`. -/
def getAllDigimons (page limit : Int) (stage : Option String)
    (resp : ListQueryResp) : Except String ListResult :=
  match resp.error with
  | some _ => .error "Não foi possível buscar os Digimons."
  | none =>
    .ok { data := resp.data.map (fun d => formatDigimon (some d))
          pagination :=
            { page := page, limit := limit, total := resp.count
              totalPages := ⌈(resp.count : ℚ) / (limit : ℚ)⌉ } }

/-- Embeds `searchDigimons` from src/services/digimonService.js as a function
of the backend response to its one query. -/
def searchDigimons (searchTerm : String) (limit : Int)
    (resp : ListResp RawDigimon) : Except String (List (Option Digimon)) :=
  match resp.error with
  | some _ => .error "Erro ao pesquisar Digimons."
  | none => .ok (resp.data.map (fun d => formatDigimon (some d)))

/-- The response of the head count query used by `getStats`. -/
structure CountResp where
  count : Option Nat
  error : Option String
deriving DecidableEq

/-- The response of the `count_digimons_by_stage` RPC: opaque per-stage
counts. -/
structure RpcResp where
  data : List (String × Nat)
  error : Option String
deriving DecidableEq

/-- The object returned by `getStats`. -/
structure Stats where
  total_digimons : Option Nat
  count_by_stage : List (String × Nat)
deriving DecidableEq

/-- Embeds `getStats` from src/services/digimonService.js. -/
def getStats (c : CountResp) (s : RpcResp) : Except String Stats :=
  if c.error.isSome || s.error.isSome then .error "Erro ao buscar estatísticas."
  else .ok { total_digimons := c.count, count_by_stage := s.data }

/-- Modelled from the spec: `errorResponse` lives in src/utils/response.js,
which is not among the sources; the spec defines the error envelope as the
fields success (false), error (the message) and statusCode. -/
structure ErrorEnvelope where
  success : Bool
  error : String
  statusCode : Int
deriving DecidableEq

/-- Modelled from the spec: builds the error envelope. -/
def errorResponse (message : String) (statusCode : Int) : ErrorEnvelope :=
  { success := false, error := message, statusCode := statusCode }

/-- Modelled from the spec: `successResponse` from src/utils/response.js wraps
data as the fields success (true), data and message. -/
structure SuccessEnvelope (α : Type) where
  success : Bool
  data : α
  message : String
deriving DecidableEq

/-- Modelled from the spec: builds the success envelope. -/
def successResponse {α : Type} (data : α) (message : String) : SuccessEnvelope α :=
  { success := true, data := data, message := message }

/-- The pagination variant of the success envelope, modelled from the spec:
success (true), data and pagination. -/
structure PaginatedEnvelope where
  success : Bool
  data : List (Option Digimon)
  pagination : PaginationInfo
deriving DecidableEq

/-- Modelled from the spec: builds the paginated envelope. -/
def paginatedResponse (data : List (Option Digimon)) (p : PaginationInfo) :
    PaginatedEnvelope :=
  { success := true, data := data, pagination := p }

/-- The outcome of a route handler: a 200 reply with a body, an explicit
error-status reply with the error envelope, or an exception handed to the
error-handling middleware (out of scope here). -/
inductive RouteOutcome (α : Type) where
  | ok (status : Nat) (body : α)
  | fail (status : Nat) (body : ErrorEnvelope)
  | backendError (message : String)
deriving DecidableEq

/-- Embeds the `GET /` handler from src/routes/digimons.js: validate the
pagination input, call the service, and wrap the result. -/
def listRoute (pageQ limitQ : JSNum) (stage : Option String)
    (resp : ListQueryResp) : RouteOutcome PaginatedEnvelope :=
  let pl := validatePagination pageQ limitQ
  match getAllDigimons pl.page pl.limit stage resp with
  | .error m => .backendError m
  | .ok r => .ok 200 (paginatedResponse r.data r.pagination)

/-- Embeds the `GET /search` handler from src/routes/digimons.js, paired with
a flag telling whether the service was invoked: sanitize the term, clamp the
limit to [1,50] with default 10, answer 400 without any service call when the
sanitized term is empty, and otherwise delegate to `searchDigimons`.  The
handler calls `errorResponse` with the message only; its status-code argument
is modelled as the 400 that the route sets on the reply. -/
def searchRoute (q : JSStr) (limitQ : JSNum) (resp : ListResp RawDigimon) :
    RouteOutcome (SuccessEnvelope (List (Option Digimon))) × Bool :=
  if sanitizeSearchTerm q = "" then
    (.fail 400 (errorResponse "Termo de busca é obrigatório" 400), false)
  else
    match searchDigimons (sanitizeSearchTerm q)
        (min 50 (max 1 (parseIntOr limitQ 10))) resp with
    | .error m => (.backendError m, true)
    | .ok results =>
      (.ok 200 (successResponse results
        (toString results.length ++ " Digimons encontrados")), true)

/-- Embeds the `GET /stats` handler from src/routes/digimons.js. -/
def statsRoute (c : CountResp) (s : RpcResp) : RouteOutcome (SuccessEnvelope Stats) :=
  match getStats c s with
  | .error m => .backendError m
  | .ok st => .ok 200 (successResponse st "Estatísticas recuperadas com sucesso")

/-- Embeds the `GET /:id` handler from src/routes/digimons.js: a null service
result becomes a 404 with the not-found envelope, otherwise a 200 with the
found creature. -/
def getByIdRoute (resp : SingleResp) : RouteOutcome (SuccessEnvelope Digimon) :=
  match getDigimonById resp with
  | .error m => .backendError m
  | .ok none => .fail 404 (errorResponse "Digimon não encontrado" 404)
  | .ok (some d) => .ok 200 (successResponse d "Digimon encontrado")

/-- Embeds the `GET /:id/evolutions` handler from src/routes/digimons.js. -/
def evolutionsRoute (b : EvolutionBackend) :
    RouteOutcome (SuccessEnvelope EvolutionResult) :=
  match (getEvolutionData b).1 with
  | .error m => .backendError m
  | .ok r =>
    if r.digimon.isNone then .fail 404 (errorResponse "Digimon não encontrado" 404)
    else .ok 200 (successResponse r "Dados de evolução recuperados")

/-- Embeds the `GET /name/:name` handler from src/routes/digimons.js. -/
def getByNameRoute (resp : SingleResp) : RouteOutcome (SuccessEnvelope Digimon) :=
  match getDigimonByName resp with
  | .error m => .backendError m
  | .ok none => .fail 404 (errorResponse "Digimon não encontrado" 404)
  | .ok (some d) => .ok 200 (successResponse d "Digimon encontrado")

end DigimonAPI

namespace DigimonAPI

/-- CLAIM C1: for every integer page ≥ 1 and integer limit in [1,100],
`validatePagination(page, limit)` returns exactly that pair unchanged. -/
theorem validatePagination_identity_on_valid (p l : Int)
    (hp : 1 ≤ p) (hl1 : 1 ≤ l) (hl2 : l ≤ 100) :
    validatePagination (.intVal p) (.intVal l) = ⟨p, l⟩ := by
  simp only [validatePagination, parseIntOr]
  rw [if_neg (by omega), if_neg (by omega)]
  congr 1 <;> omega

/-- Witness for C1 at page = 2, limit = 99. -/
theorem validatePagination_identity_witness :
    validatePagination (.intVal 2) (.intVal 99) = ⟨2, 99⟩ :=
  validatePagination_identity_on_valid 2 99 (by decide) (by decide) (by decide)

/-- CLAIM C2, counterexample: the claim says every limit < 1, including zero,
clamps to 1; but at limit = 0 the code returns the default 50, not 1. -/
theorem validatePagination_zero_limit_not_one :
    (0 : Int) < 1 ∧ (validatePagination (.intVal 1) (.intVal 0)).limit ≠ 1 := by
  decide

/-- CLAIM C2 (amended): for limit > 100 the returned limit is 100; for
negative limit the returned limit is 1; limit = 0 is falsy and yields the
default 50; the returned page is always ≥ 1. -/
theorem validatePagination_clamp_amended (p q : JSNum) (l : Int) :
    (100 < l → (validatePagination p (.intVal l)).limit = 100) ∧
    (l < 0 → (validatePagination p (.intVal l)).limit = 1) ∧
    (validatePagination p (.intVal 0)).limit = 50 ∧
    1 ≤ (validatePagination p q).page := by
  have hlimit : ∀ (a : JSNum) (m : Int),
      (validatePagination a (.intVal m)).limit =
        min 100 (max 1 (if m = 0 then 50 else m)) := fun _ _ => rfl
  refine ⟨?_, ?_, ?_, le_max_left _ _⟩
  · intro h; rw [hlimit, if_neg (by omega)]; omega
  · intro h; rw [hlimit, if_neg (by omega)]; omega
  · rw [hlimit]; omega

/-- Witness for C2 (amended) at p = 5, l = 200: the limit clamps to 100. -/
theorem validatePagination_clamp_amended_witness :
    (validatePagination (.intVal 5) (.intVal 200)).limit = 100 :=
  (validatePagination_clamp_amended (.intVal 5) (.intVal 7) 200).1 (by decide)

/-- CLAIM C3: `sanitizeSearchTerm` is total and pure: every non-string or
absent input returns the empty string; every string input is trimmed, has all
angle brackets removed, and is truncated to at most 100 characters; the two
concrete examples of the spec evaluate as claimed. -/
theorem sanitizeSearchTerm_spec :
    sanitizeSearchTerm .nonString = "" ∧
    sanitizeSearchTerm (.strVal "<script>a</script>") = "scripta/script" ∧
    (∀ s : String, (sanitizeSearchTerm (.strVal s)).length ≤ 100) ∧
    (∀ s : String, sanitizeSearchTerm (.strVal s) =
      (((jsTrim s.toList).filter (fun c => !(c = '<' || c = '>'))).take 100).asString) := by
  have pipe : ∀ s : String, s ≠ "" → sanitizeSearchTerm (.strVal s) =
      (((jsTrim s.toList).filter (fun c => !(c = '<' || c = '>'))).take 100).asString := by
    intro s h
    show (if s = "" then "" else _) = _
    rw [if_neg h]
  refine ⟨rfl, by decide, ?_, ?_⟩
  · intro s
    by_cases h : s = ""
    · subst h; decide
    · rw [pipe s h]
      rw [show ∀ l : List Char, (List.asString l).length = l.length from fun _ => rfl]
      rw [List.length_take]
      exact min_le_left _ _
  · intro s
    by_cases h : s = ""
    · subst h; rfl
    · exact pipe s h

/-- CLAIM C4: when a row matches, the GET by-id route answers 200 with the
formatted record; the recognized no-rows signal PGRST116 is success with
absence for the service and a 404 not-found envelope for the route; any other
backend error is re-raised as the generic backend error. -/
theorem getById_route_contract (resp : SingleResp) :
    (∀ d : RawDigimon, resp = ⟨some d, none⟩ →
      getByIdRoute resp = .ok 200 (successResponse
        { id := d.id, number := d.number, name := d.name, stage := d.stage,
          «attribute» := d.«attribute», image_url := d.image_url }
        "Digimon encontrado")) ∧
    (resp = ⟨none, some "PGRST116"⟩ →
      getDigimonById resp = .ok none ∧
      getByIdRoute resp = .fail 404
        { success := false, error := "Digimon não encontrado", statusCode := 404 }) ∧
    (∀ code, code ≠ "PGRST116" → resp.error = some code →
      getDigimonById resp = .error "Erro ao buscar Digimon por ID.") := by
  refine ⟨?_, ?_, ?_⟩
  · rintro d rfl
    rfl
  · rintro rfl
    exact ⟨rfl, rfl⟩
  · intro code hne h
    simp [getDigimonById, h, hne]

/-- Witness for C4: a concrete matching row answers 200, the concrete
PGRST116 response answers 404, and a concrete other error is re-raised. -/
theorem getById_route_contract_witness :
    getByIdRoute ⟨some ⟨1, 1, "Agumon", "III", "Vaccine", "u", ""⟩, none⟩ =
      .ok 200 (successResponse ⟨1, 1, "Agumon", "III", "Vaccine", "u"⟩
        "Digimon encontrado") ∧
    getByIdRoute ⟨none, some "PGRST116"⟩ = .fail 404
      { success := false, error := "Digimon não encontrado", statusCode := 404 } ∧
    getDigimonById ⟨none, some "XX123"⟩ = .error "Erro ao buscar Digimon por ID." :=
  ⟨(getById_route_contract ⟨some ⟨1, 1, "Agumon", "III", "Vaccine", "u", ""⟩, none⟩).1
      ⟨1, 1, "Agumon", "III", "Vaccine", "u", ""⟩ rfl,
   ((getById_route_contract ⟨none, some "PGRST116"⟩).2.1 rfl).2,
   (getById_route_contract ⟨none, some "XX123"⟩).2.2 "XX123" (by decide) rfl⟩

/-- CLAIM C5: when the base-creature lookup reports absence,
`getEvolutionData` returns only a null digimon, issues none of the three
fan-out queries, and its result does not depend on the evolution or
requirement responses. -/
theorem getEvolutionData_absent_short_circuit (b : EvolutionBackend)
    (h : getDigimonById b.byId = .ok none) :
    (getEvolutionData b).1 =
      .ok { digimon := none, evolves_to := none, evolves_from := none,
            requirements := none } ∧
    (getEvolutionData b).2 = [.qById] ∧
    EvoQuery.qEvolvesTo ∉ (getEvolutionData b).2 ∧
    EvoQuery.qEvolvesFrom ∉ (getEvolutionData b).2 ∧
    EvoQuery.qRequirements ∉ (getEvolutionData b).2 ∧
    (∀ b' : EvolutionBackend, b'.byId = b.byId →
      getEvolutionData b' = getEvolutionData b) := by
  have hmain : getEvolutionData b =
      (.ok { digimon := none, evolves_to := none, evolves_from := none,
             requirements := none }, [.qById]) := by
    unfold getEvolutionData
    rw [h]
  refine ⟨by rw [hmain], by rw [hmain], by rw [hmain]; decide,
    by rw [hmain]; decide, by rw [hmain]; decide, ?_⟩
  intro b' hb
  have hmain' : getEvolutionData b' =
      (.ok { digimon := none, evolves_to := none, evolves_from := none,
             requirements := none }, [.qById]) := by
    unfold getEvolutionData
    rw [hb, h]
  rw [hmain, hmain']

/-- Witness for C5 at a backend whose by-id response has no row. -/
theorem getEvolutionData_absent_witness :
    (getEvolutionData ⟨⟨none, none⟩, ⟨[], none⟩, ⟨[], none⟩, ⟨[], none⟩⟩).1 =
      .ok { digimon := none, evolves_to := none, evolves_from := none,
            requirements := none } ∧
    (getEvolutionData ⟨⟨none, none⟩, ⟨[], none⟩, ⟨[], none⟩, ⟨[], none⟩⟩).2 =
      [.qById] :=
  ⟨(getEvolutionData_absent_short_circuit
      ⟨⟨none, none⟩, ⟨[], none⟩, ⟨[], none⟩, ⟨[], none⟩⟩ rfl).1,
   (getEvolutionData_absent_short_circuit
      ⟨⟨none, none⟩, ⟨[], none⟩, ⟨[], none⟩, ⟨[], none⟩⟩ rfl).2.1⟩

/-- CLAIM C6: when the base creature exists, an error in any of the three
fan-out responses fails the whole operation with the generic backend error
carrying no partial data, and on success the result holds the base creature,
both formatted evolution lists, and the raw requirement rows; the three
fan-out queries are issued either way. -/
theorem getEvolutionData_fanout_all_or_error (b : EvolutionBackend)
    (d : Digimon) (h : getDigimonById b.byId = .ok (some d)) :
    ((b.evolvesToResp.error.isSome ∨ b.evolvesFromResp.error.isSome ∨
        b.requirementsResp.error.isSome) →
      (getEvolutionData b).1 = .error "Erro ao buscar dados de evolução.") ∧
    (b.evolvesToResp.error = none → b.evolvesFromResp.error = none →
      b.requirementsResp.error = none →
      (getEvolutionData b).1 = .ok
        { digimon := some d
          evolves_to := some (b.evolvesToResp.data.map
            (fun e => formatDigimon e.to_digimon))
          evolves_from := some (b.evolvesFromResp.data.map
            (fun e => formatDigimon e.from_digimon))
          requirements := some b.requirementsResp.data }) ∧
    (getEvolutionData b).2 = [.qById, .qEvolvesTo, .qEvolvesFrom, .qRequirements] := by
  have hred : getEvolutionData b =
      (if b.evolvesToResp.error.isSome || b.evolvesFromResp.error.isSome ||
          b.requirementsResp.error.isSome then
        (.error "Erro ao buscar dados de evolução.",
         [.qById, .qEvolvesTo, .qEvolvesFrom, .qRequirements])
      else
        (.ok { digimon := some d
               evolves_to := some (b.evolvesToResp.data.map
                 (fun e => formatDigimon e.to_digimon))
               evolves_from := some (b.evolvesFromResp.data.map
                 (fun e => formatDigimon e.from_digimon))
               requirements := some b.requirementsResp.data },
         [.qById, .qEvolvesTo, .qEvolvesFrom, .qRequirements])) := by
    unfold getEvolutionData
    rw [h]
  refine ⟨?_, ?_, ?_⟩
  · intro hor
    have hcond : (b.evolvesToResp.error.isSome || b.evolvesFromResp.error.isSome ||
        b.requirementsResp.error.isSome) = true := by
      rcases hor with h1 | h1 | h1 <;> simp [h1]
    rw [hred, if_pos hcond]
  · intro h1 h2 h3
    have hcond : ¬ ((b.evolvesToResp.error.isSome || b.evolvesFromResp.error.isSome ||
        b.requirementsResp.error.isSome) = true) := by
      simp [h1, h2, h3]
    rw [hred, if_neg hcond]
  · rw [hred]
    split <;> rfl

/-- Witness for C6: with a concrete existing base creature and an errored
forward-evolution response, the whole operation fails with the generic
message. -/
theorem getEvolutionData_fanout_witness :
    (getEvolutionData ⟨⟨some ⟨1, 1, "Agumon", "III", "Vaccine", "u", ""⟩, none⟩,
        ⟨[], some "ERR"⟩, ⟨[], none⟩, ⟨[], none⟩⟩).1 =
      .error "Erro ao buscar dados de evolução." :=
  (getEvolutionData_fanout_all_or_error
      ⟨⟨some ⟨1, 1, "Agumon", "III", "Vaccine", "u", ""⟩, none⟩,
        ⟨[], some "ERR"⟩, ⟨[], none⟩, ⟨[], none⟩⟩
      ⟨1, 1, "Agumon", "III", "Vaccine", "u"⟩ rfl).1 (Or.inl rfl)

/-- The rational ceiling of a quotient of naturals, written with natural
division. -/
theorem rat_ceil_nat_div (c l : Nat) (hl : 1 ≤ l) :
    ⌈(c : ℚ) / (l : ℚ)⌉ = ((c + l - 1) / l : Nat) := by
  have hl0 : (0 : ℚ) < (l : ℚ) := by exact_mod_cast hl
  have hdm : l * ((c + l - 1) / l) + (c + l - 1) % l = c + l - 1 :=
    Nat.div_add_mod _ _
  have hmlt : (c + l - 1) % l + 1 ≤ l := Nat.mod_lt _ (by omega)
  have h1n : (1 : Nat) ≤ c + l := by omega
  have hdmQ : (l : ℚ) * (((c + l - 1) / l : Nat) : ℚ) + (((c + l - 1) % l : Nat) : ℚ)
      = (c : ℚ) + (l : ℚ) - 1 := by
    have h2 : ((l * ((c + l - 1) / l) + (c + l - 1) % l : Nat) : ℚ)
        = (((c + l - 1) : Nat) : ℚ) := by
      exact_mod_cast congrArg (fun n : Nat => (n : ℚ)) hdm
    rw [Nat.cast_sub h1n] at h2
    push_cast at h2 ⊢
    linarith
  have hmltQ : (((c + l - 1) % l : Nat) : ℚ) + 1 ≤ (l : ℚ) := by exact_mod_cast hmlt
  have hmnn : (0 : ℚ) ≤ (((c + l - 1) % l : Nat) : ℚ) := by positivity
  rw [Int.ceil_eq_iff]
  rw [Int.cast_natCast]
  constructor
  · rw [lt_div_iff₀ hl0]
    nlinarith [hdmQ, hmltQ, hmnn]
  · rw [div_le_iff₀ hl0]
    nlinarith [hdmQ, hmltQ, hmnn]

/-- CLAIM C7: every successful list call reports
totalPages = ceil(total / limit); with total 125 and limit 50 this is 3. -/
theorem getAllDigimons_totalPages_ceil (page limit : Int) (stage : Option String)
    (resp : ListQueryResp) (r : ListResult) (hl : 1 ≤ limit)
    (hok : getAllDigimons page limit stage resp = .ok r) :
    r.pagination.totalPages = ⌈(resp.count : ℚ) / (limit : ℚ)⌉ ∧
    r.pagination.totalPages = ((resp.count + limit.toNat - 1) / limit.toNat : Nat) ∧
    (resp.count = 125 → limit = 50 → r.pagination.totalPages = 3) := by
  cases hE : resp.error with
  | some code =>
    exfalso
    unfold getAllDigimons at hok
    rw [hE] at hok
    exact Except.noConfusion hok
  | none =>
    unfold getAllDigimons at hok
    rw [hE] at hok
    injection hok with hok
    subst hok
    have hcast : ((limit.toNat : Nat) : ℚ) = (limit : ℚ) := by
      exact_mod_cast congrArg (fun z : Int => (z : ℚ)) (Int.toNat_of_nonneg (by omega))
    refine ⟨rfl, ?_, ?_⟩
    · show ⌈(resp.count : ℚ) / (limit : ℚ)⌉ = _
      rw [← hcast]
      exact rat_ceil_nat_div resp.count limit.toNat (by omega)
    · intro hc hl50
      show ⌈(resp.count : ℚ) / (limit : ℚ)⌉ = 3
      rw [hc, hl50]
      rw [show ((50 : Int) : ℚ) = ((50 : Nat) : ℚ) by norm_num]
      rw [rat_ceil_nat_div 125 50 (by norm_num)]
      norm_num

/-- Witness for C7: the concrete list response with total 125 at limit 50
yields totalPages 3. -/
theorem getAllDigimons_totalPages_witness :
    ((⟨[], ⟨1, 50, 125, ⌈((125 : Nat) : ℚ) / ((50 : Int) : ℚ)⌉⟩⟩ :
      ListResult)).pagination.totalPages = 3 :=
  (getAllDigimons_totalPages_ceil 1 50 none ⟨[], none, 125⟩ _
    (by norm_num) rfl).2.2 rfl rfl

/-- CLAIM C8: a search request whose term sanitizes to the empty string is
answered 400 before any backend call, and the search service is never
invoked (the issuance flag stays false). -/
theorem searchRoute_empty_term_400 (q : JSStr) (limitQ : JSNum)
    (resp : ListResp RawDigimon) (h : sanitizeSearchTerm q = "") :
    searchRoute q limitQ resp =
      (.fail 400 { success := false, error := "Termo de busca é obrigatório",
                   statusCode := 400 }, false) := by
  unfold searchRoute
  rw [if_pos h]
  rfl

/-- Witness for C8 at a non-string search term and an arbitrary concrete
backend. -/
theorem searchRoute_empty_term_witness :
    searchRoute .nonString (.intVal 10) ⟨[], none⟩ =
      (.fail 400 { success := false, error := "Termo de busca é obrigatório",
                   statusCode := 400 }, false) :=
  searchRoute_empty_term_400 .nonString (.intVal 10) ⟨[], none⟩ rfl

/-- CLAIM C9: every exposed GET operation is deterministic: two runs with
identical inputs and identical backend responses produce identical
responses.  Each route is a pure function of its inputs and of the backend
responses it observes, so equal inputs give equal outputs. -/
theorem exposed_get_routes_deterministic :
    (∀ (p l : JSNum) (s : Option String) (r : ListQueryResp)
        (p' l' : JSNum) (s' : Option String) (r' : ListQueryResp),
        p = p' → l = l' → s = s' → r = r' →
        listRoute p l s r = listRoute p' l' s' r') ∧
    (∀ (q q' : JSStr) (l l' : JSNum) (r r' : ListResp RawDigimon),
        q = q' → l = l' → r = r' → searchRoute q l r = searchRoute q' l' r') ∧
    (∀ (c c' : CountResp) (s s' : RpcResp), c = c' → s = s' →
        statsRoute c s = statsRoute c' s') ∧
    (∀ r r' : SingleResp, r = r' → getByIdRoute r = getByIdRoute r') ∧
    (∀ b b' : EvolutionBackend, b = b' → evolutionsRoute b = evolutionsRoute b') ∧
    (∀ r r' : SingleResp, r = r' → getByNameRoute r = getByNameRoute r') := by
  refine ⟨?_, ?_, ?_, ?_, ?_, ?_⟩ <;> intros <;> subst_vars <;> rfl

/-- Witness for C9: two identical concrete by-id requests coincide. -/
theorem exposed_get_routes_deterministic_witness :
    getByIdRoute ⟨none, some "PGRST116"⟩ = getByIdRoute ⟨none, some "PGRST116"⟩ :=
  exposed_get_routes_deterministic.2.2.2.1
    ⟨none, some "PGRST116"⟩ ⟨none, some "PGRST116"⟩ rfl

/-- CLAIM C10: the numeric input 0 is treated as missing rather than
out-of-range: a page of 0 yields page 1, and a limit of 0 yields the default
limit 50 (not the clamp bound 1). -/
theorem validatePagination_zero_treated_as_missing (x : JSNum) :
    (validatePagination (.intVal 0) x).page = 1 ∧
    (validatePagination x (.intVal 0)).limit = 50 := by
  constructor
  · show max 1 (parseIntOr (.intVal 0) 1) = 1
    decide
  · show min 100 (max 1 (parseIntOr (.intVal 0) 50)) = 50
    decide

end DigimonAPI
